import Mathlib

/-!
Shallow embedding of the anchor client dual-mode facade
(src/client/src/blocking.rs and src/client/src/nonblocking.rs).

The two source files are thin facades over a single set of async
implementation functions (account_internal, accounts_lazy_internal,
on_internal, signed_transaction_internal, send_internal,
send_with_spinner_and_config_internal, unsubscribe_internal) and shared
struct definitions (Program, RequestBuilder, EventUnsubscriber, Config,
ProgramAccountsIterator) that live in the crate root, which is not part
of the two files.  Definitions taken from the two facade files are
translated directly; the crate-root parts are modelled from the spec and
carry a doc comment saying so.

An async computation is embedded as a function of an abstract RPC world:
`AsyncM a = World -> a`.  Driving a future to completion on a runtime
(`Runtime::block_on`) returns exactly the value the future resolves to,
so `blockOn` runs the computation on the same world.
-/

namespace AnchorClient

/-- Fixed-size on-chain address (solana Pubkey), abstracted to its identity. -/
structure Pubkey where
  key : Nat
deriving DecidableEq, Repr

/-- Raw account or payload bytes. -/
abbrev Bytes := List Nat

/-- Recent blockhash returned by the RPC collaborator. -/
structure Blockhash where
  hash : Nat
deriving DecidableEq, Repr

/-- Transaction signature produced by a signer or returned on submission. -/
structure Signature where
  bytes : Nat
deriving DecidableEq, Repr

/-- Commitment level enumeration of the solana SDK. -/
inductive CommitmentLevel
  | processed
  | confirmed
  | finalized
deriving DecidableEq, Repr

/-- CommitmentConfig wraps a commitment level. -/
structure CommitmentConfig where
  commitment : CommitmentLevel
deriving DecidableEq, Repr

/-- Default commitment configuration substituted by unwrap_or_default. -/
def CommitmentConfig.default : CommitmentConfig :=
  { commitment := .finalized }

/-- Modelled from the spec (section 7): the error taxonomy of ClientError.
TransportError covers failed RPC calls, DecodeError bad bytes, SigningError a
refusing signer, RuntimeInitError a failed blocking-mode runtime build. -/
inductive ClientError
  | transportError (code : Nat)
  | decodeError (code : Nat)
  | signingError (code : Nat)
  | runtimeInitError (code : Nat)
deriving DecidableEq, Repr

/-- RPC account filter passed through to getProgramAccounts. -/
inductive RpcFilterType
  | dataSize (n : Nat)
  | memcmp (offset : Nat) (bytes : Bytes)
deriving DecidableEq, Repr

/-- Account metadata entry of an instruction (address, is-signer, is-writable). -/
structure AccountMeta where
  pubkey : Pubkey
  isSigner : Bool
  isWritable : Bool
deriving DecidableEq, Repr

/-- One instruction of a transaction. -/
structure Instruction where
  programId : Pubkey
  accounts : List AccountMeta
  data : Bytes
deriving DecidableEq, Repr

/-- Transaction message: fee payer, ordered instructions, recent blockhash. -/
structure Message where
  feePayer : Pubkey
  instructions : List Instruction
  recentBlockhash : Blockhash
deriving DecidableEq, Repr

/-- A signed transaction: its message plus the signatures in signing order. -/
structure Transaction where
  message : Message
  signatures : List Signature
deriving DecidableEq, Repr

/-- Signing capability (the payer or an additional signer). -/
structure SignerCap where
  address : Pubkey
  sign : Message → Except ClientError Signature

/-- Send configuration accepted by send_with_spinner_and_config. -/
structure RpcSendTransactionConfig where
  skipPreflight : Bool
  maxRetries : Option Nat
  preflightCommitment : Option CommitmentLevel
deriving DecidableEq, Repr

/-- Default send configuration used by plain send. -/
def RpcSendTransactionConfig.default : RpcSendTransactionConfig :=
  { skipPreflight := false, maxRetries := none, preflightCommitment := none }

/-- Cluster locator (URL or named cluster), abstracted to an endpoint id. -/
structure Cluster where
  endpoint : Nat
deriving DecidableEq, Repr

/-- Mirrors cluster.url(): the endpoint the RPC clients connect to. -/
def Cluster.url (c : Cluster) : Nat :=
  c.endpoint

/-- Client configuration: cluster, payer, optional commitment level. -/
structure Config where
  cluster : Cluster
  payer : SignerCap
  options : Option CommitmentConfig

/-- An RPC collaborator handle constructed for a url at a commitment level. -/
structure RpcClient where
  url : Nat
  commitment : CommitmentConfig
deriving DecidableEq, Repr

/-- Mirrors RpcClient::new_with_commitment. -/
def RpcClient.newWithCommitment (url : Nat) (commitment : CommitmentConfig) : RpcClient :=
  { url, commitment }

/-- The shared, lazily-established subscription client. -/
structure SubClient where
  connId : Nat
deriving DecidableEq, Repr

/-- A private multi-thread task runtime owned by a blocking-mode Program. -/
structure Runtime where
  id : Nat
deriving DecidableEq, Repr

/-- Join handle of the background subscription task. -/
structure JoinHandle where
  taskId : Nat
deriving DecidableEq, Repr

/-- Receiving end of the control channel used to request shutdown. -/
structure UnsubReceiver where
  chanId : Nat
deriving DecidableEq, Repr

/-- Abstract world of the RPC collaborator: the responses the cluster would
give to each request the client can issue. -/
structure World where
  accountInfo : Pubkey → CommitmentConfig → Except ClientError Bytes
  programAccounts : Pubkey → List RpcFilterType → CommitmentConfig → Except ClientError (List (Pubkey × Bytes))
  latestBlockhash : CommitmentConfig → Except ClientError Blockhash
  sendTransaction : Transaction → RpcSendTransactionConfig → Except ClientError Signature
  logsSubscription : Pubkey → Except ClientError Nat

/-- Shallow embedding of an async computation: a function of the RPC world. -/
def AsyncM (α : Type) : Type :=
  World → α

/-- Driving a future to completion on a runtime returns exactly the value the
future resolves to: block_on runs the computation on the same world. -/
def Runtime.blockOn (_rt : Runtime) (m : AsyncM α) : AsyncM α :=
  m

/-- Codec collaborator for a typed account or event T: deserialization plus
the fixed discriminator tag of T. -/
structure Codec (T : Type) where
  decode : Bytes → Except ClientError T
  discriminator : Bytes

/-- Modelled from the spec (section 3): ProgramAccountsIterator, a lazy
single-pass sequence over (address, raw bytes) pairs from one prior bulk
fetch, decoding each entry on demand; the crate-root struct is not in src/. -/
structure ProgramAccountsIterator (T : Type) where
  entries : List (Pubkey × Bytes)
  deserialize : Bytes → Except ClientError T

/-- One lazy step of the iterator: convert the next raw entry (decode its
bytes, pair the result with its address) and return the rest. -/
def ProgramAccountsIterator.next (it : ProgramAccountsIterator T) :
    Option (Except ClientError (Pubkey × T)) × ProgramAccountsIterator T :=
  match it.entries with
  | [] => (none, it)
  | e :: rest =>
      (some ((it.deserialize e.2).map fun v => (e.1, v)),
       { it with entries := rest })

/-- Collecting a list of fallible items into a fallible list, stopping at the
first error (the semantics of Rust collect over Results). -/
def collectResults : List (Except ClientError (Pubkey × T)) → Except ClientError (List (Pubkey × T))
  | [] => .ok []
  | x :: xs =>
      match x with
      | .error e => .error e
      | .ok v =>
          match collectResults xs with
          | .error e => .error e
          | .ok vs => .ok (v :: vs)

/-- The collect() call of the eager accounts facade: convert every entry and
collect the per-item results, stopping at the first error. -/
def ProgramAccountsIterator.collect (it : ProgramAccountsIterator T) :
    Except ClientError (List (Pubkey × T)) :=
  collectResults (it.entries.map fun e => (it.deserialize e.2).map fun v => (e.1, v))

/-- Eagerly draining the iterator to completion by repeated next calls,
keeping every yielded pair in order and failing at the first item error. -/
def drainEntries (deserialize : Bytes → Except ClientError T) :
    List (Pubkey × Bytes) → Except ClientError (List (Pubkey × T))
  | [] => .ok []
  | e :: rest =>
      match (deserialize e.2).map fun v => (e.1, v) with
      | .error er => .error er
      | .ok item =>
          match drainEntries deserialize rest with
          | .error er => .error er
          | .ok items => .ok (item :: items)

/-- Draining an iterator to completion. -/
def ProgramAccountsIterator.drain (it : ProgramAccountsIterator T) :
    Except ClientError (List (Pubkey × T)) :=
  drainEntries it.deserialize it.entries

/-- Draining the fallible result of accounts_lazy: a fetch error is returned
unchanged, otherwise the iterator is drained. -/
def drainResult : Except ClientError (ProgramAccountsIterator T) → Except ClientError (List (Pubkey × T))
  | .error e => .error e
  | .ok it => it.drain

/-- Modelled from the spec (section 4.1): account_internal lives in the crate
root, outside src/; it fetches the raw bytes of the address via the async RPC
collaborator at the configured commitment level and decodes them with the
codec, propagating a fetch TransportError or a DecodeError. -/
def accountInternal (codec : Codec T) (commitment : CommitmentConfig) (address : Pubkey) :
    AsyncM (Except ClientError T) :=
  fun w =>
    match w.accountInfo address commitment with
    | .error e => .error e
    | .ok bytes => codec.decode bytes

/-- The implicit discriminator-match filter for T prepended to the caller
filters (spec section 4.1). -/
def discriminatorFilter (codec : Codec T) : RpcFilterType :=
  .memcmp 0 codec.discriminator

/-- Modelled from the spec (sections 4.1 and 3): accounts_lazy_internal lives
in the crate root, outside src/; it issues one getProgramAccounts round trip
under the program identity with the implicit discriminator filter plus the
caller filters, and wraps the raw entries in a lazy iterator that decodes
per item on consumption. -/
def accountsLazyInternal (codec : Codec T) (programId : Pubkey)
    (commitment : CommitmentConfig) (filters : List RpcFilterType) :
    AsyncM (Except ClientError (ProgramAccountsIterator T)) :=
  fun w =>
    match w.programAccounts programId (discriminatorFilter codec :: filters) commitment with
    | .error e => .error e
    | .ok entries => .ok { entries, deserialize := codec.decode }

/-- Modelled from the spec (sections 4.1 and 4.2): on_internal lives in the
crate root, outside src/; it establishes the shared subscription client if
absent (reusing it otherwise), opens a log stream scoped to the program
identity, spawns the delivery task and returns the join handle and the
control-channel receiver, together with the possibly newly established
subscription client. -/
def onInternal (programId : Pubkey) (subClient : Option SubClient) :
    AsyncM (Except ClientError (JoinHandle × UnsubReceiver) × Option SubClient) :=
  fun w =>
    match w.logsSubscription programId with
    | .error e => (.error e, subClient)
    | .ok streamId =>
        let client :=
          match subClient with
          | some c => c
          | none => { connId := streamId }
        (.ok ({ taskId := streamId }, { chanId := streamId }), some client)

/-- The handle returned by Program::on to stop a subscription.  The crate
struct carries the join handle, the control-channel receiver and, under the
blocking feature, a borrowed reference to the private runtime handle; the
runtime part is modelled as an optional runtime id (some in blocking mode,
none in async mode). -/
structure EventUnsubscriber where
  handle : JoinHandle
  rx : UnsubReceiver
  runtimeHandle : Option Nat
deriving DecidableEq, Repr

/-- The blocking-mode Program (blocking.rs): configuration, the shared
subscription client, the private runtime, and the two RPC collaborator
handles of the rpc-client feature. -/
structure BlockingProgram where
  programId : Pubkey
  cfg : Config
  subClient : Option SubClient
  rt : Runtime
  rpcClient : RpcClient
  asyncRpcClient : RpcClient

/-- The non-blocking Program (nonblocking.rs): as the blocking one but with
no private runtime. -/
structure AsyncProgram where
  programId : Pubkey
  cfg : Config
  subClient : Option SubClient
  rpcClient : RpcClient
  asyncRpcClient : RpcClient

/-- Translated from blocking.rs Program::new: build the private multi-thread
runtime first (the only fallible step, an OS-level failure converted to
RuntimeInitError), then construct the RPC clients for the cluster url at the
defaulted commitment and return the Program with an unestablished
subscription client.  The outcome of the OS-level runtime build is passed in
as an argument since it is decided outside the program. -/
def BlockingProgram.new (rtBuild : Except Nat Runtime) (programId : Pubkey) (cfg : Config) :
    Except ClientError BlockingProgram :=
  match rtBuild with
  | .error code => .error (.runtimeInitError code)
  | .ok rt =>
      let commConfig := cfg.options.getD CommitmentConfig.default
      let clusterUrl := cfg.cluster.url
      .ok { programId, cfg, subClient := none, rt,
            rpcClient := RpcClient.newWithCommitment clusterUrl commConfig,
            asyncRpcClient := RpcClient.newWithCommitment clusterUrl commConfig }

/-- Translated from nonblocking.rs Program::new: no runtime is built and no
fallible step occurs; the RPC clients are constructed for the cluster url at
the defaulted commitment and the subscription client starts unestablished. -/
def AsyncProgram.new (programId : Pubkey) (cfg : Config) :
    Except ClientError AsyncProgram :=
  let commConfig := cfg.options.getD CommitmentConfig.default
  let clusterUrl := cfg.cluster.url
  .ok { programId, cfg, subClient := none,
        rpcClient := RpcClient.newWithCommitment clusterUrl commConfig,
        asyncRpcClient := RpcClient.newWithCommitment clusterUrl commConfig }

/-- Translated from blocking.rs Program::account: block_on the shared
account_internal on the private runtime. -/
def BlockingProgram.account (p : BlockingProgram) (codec : Codec T) (address : Pubkey) :
    AsyncM (Except ClientError T) :=
  p.rt.blockOn (accountInternal codec p.asyncRpcClient.commitment address)

/-- Translated from blocking.rs Program::accounts_lazy: block_on the shared
accounts_lazy_internal on the private runtime. -/
def BlockingProgram.accountsLazy (p : BlockingProgram) (codec : Codec T)
    (filters : List RpcFilterType) :
    AsyncM (Except ClientError (ProgramAccountsIterator T)) :=
  p.rt.blockOn (accountsLazyInternal codec p.programId p.asyncRpcClient.commitment filters)

/-- Translated from blocking.rs Program::accounts: accounts_lazy then collect,
propagating the fetch error of accounts_lazy unchanged. -/
def BlockingProgram.accounts (p : BlockingProgram) (codec : Codec T)
    (filters : List RpcFilterType) :
    AsyncM (Except ClientError (List (Pubkey × T))) :=
  fun w =>
    match p.accountsLazy codec filters w with
    | .error e => .error e
    | .ok it => it.collect

/-- Translated from blocking.rs Program::on: block_on the shared on_internal,
then wrap the handle and receiver in an EventUnsubscriber that also stores a
borrowed reference to the private runtime handle.  The second component is
the subscription-client state after the call. -/
def BlockingProgram.on (p : BlockingProgram) :
    AsyncM (Except ClientError EventUnsubscriber × Option SubClient) :=
  fun w =>
    match p.rt.blockOn (onInternal p.programId p.subClient) w with
    | (.error e, sc) => (.error e, sc)
    | (.ok (handle, rx), sc) =>
        (.ok { handle, rx, runtimeHandle := some p.rt.id }, sc)

/-- Translated from nonblocking.rs Program::account: await the shared
account_internal directly. -/
def AsyncProgram.account (p : AsyncProgram) (codec : Codec T) (address : Pubkey) :
    AsyncM (Except ClientError T) :=
  accountInternal codec p.asyncRpcClient.commitment address

/-- Translated from nonblocking.rs Program::accounts_lazy: await the shared
accounts_lazy_internal directly. -/
def AsyncProgram.accountsLazy (p : AsyncProgram) (codec : Codec T)
    (filters : List RpcFilterType) :
    AsyncM (Except ClientError (ProgramAccountsIterator T)) :=
  accountsLazyInternal codec p.programId p.asyncRpcClient.commitment filters

/-- Translated from nonblocking.rs Program::accounts: accounts_lazy then
collect, propagating the fetch error of accounts_lazy unchanged. -/
def AsyncProgram.accounts (p : AsyncProgram) (codec : Codec T)
    (filters : List RpcFilterType) :
    AsyncM (Except ClientError (List (Pubkey × T))) :=
  fun w =>
    match p.accountsLazy codec filters w with
    | .error e => .error e
    | .ok it => it.collect

/-- Translated from nonblocking.rs Program::on: await the shared on_internal,
then wrap the handle and receiver in an EventUnsubscriber; no runtime handle
is stored.  The second component is the subscription-client state after the
call. -/
def AsyncProgram.on (p : AsyncProgram) :
    AsyncM (Except ClientError EventUnsubscriber × Option SubClient) :=
  fun w =>
    match onInternal p.programId p.subClient w with
    | (.error e, sc) => (.error e, sc)
    | (.ok (handle, rx), sc) =>
        (.ok { handle, rx, runtimeHandle := none }, sc)

/-- The non-blocking view of a blocking Program: the same configuration,
subscription client and RPC handles, forgetting only the private runtime.
Both facades of the source wrap one crate-level Program whose fields beyond
the runtime are identical, so this is the identity on sub-observable state. -/
def BlockingProgram.toAsync (p : BlockingProgram) : AsyncProgram :=
  { programId := p.programId, cfg := p.cfg, subClient := p.subClient,
    rpcClient := p.rpcClient, asyncRpcClient := p.asyncRpcClient }

/-- The non-blocking RequestBuilder (nonblocking.rs): the accumulated pieces
of one transaction plus the snapshot of the owning Program configuration.
The async_rpc_client reference of the rpc-client feature is abstracted to
the client value. -/
structure AsyncRequestBuilder where
  programId : Pubkey
  payer : SignerCap
  cluster : Nat
  accounts : List AccountMeta
  options : CommitmentConfig
  instructions : List Instruction
  instructionData : Option Bytes
  signers : List SignerCap
  asyncRpcClient : RpcClient

/-- The blocking RequestBuilder (blocking.rs): the same fields plus the
borrowed runtime handle used to drive the shared async implementation. -/
structure BlockingRequestBuilder where
  programId : Pubkey
  payer : SignerCap
  cluster : Nat
  accounts : List AccountMeta
  options : CommitmentConfig
  instructions : List Instruction
  instructionData : Option Bytes
  signers : List SignerCap
  asyncRpcClient : RpcClient
  handle : Runtime

/-- The non-blocking view of a blocking builder: the same accumulated state,
forgetting only the runtime handle.  Both facades of the source wrap one
crate-level RequestBuilder whose fields beyond the handle are identical. -/
def BlockingRequestBuilder.toAsync (b : BlockingRequestBuilder) : AsyncRequestBuilder :=
  { programId := b.programId, payer := b.payer, cluster := b.cluster,
    accounts := b.accounts, options := b.options,
    instructions := b.instructions, instructionData := b.instructionData,
    signers := b.signers, asyncRpcClient := b.asyncRpcClient }

/-- Modelled from the spec (sections 3 and 4.3): the effective instruction
list of a builder; the optional fixed instruction-data override, when
present, contributes one final instruction built from the snapshot program
identity, the accumulated account metadata and the override bytes. -/
def AsyncRequestBuilder.effectiveInstructions (b : AsyncRequestBuilder) : List Instruction :=
  b.instructions ++
    (match b.instructionData with
     | some d => [{ programId := b.programId, accounts := b.accounts, data := d }]
     | none => [])

/-- Signing a message with every signer in the order supplied, failing with
the first SigningError. -/
def signAll : List SignerCap → Message → Except ClientError (List Signature)
  | [], _ => .ok []
  | s :: rest, msg =>
      match s.sign msg with
      | .error e => .error e
      | .ok sig =>
          match signAll rest msg with
          | .error e => .error e
          | .ok sigs => .ok (sig :: sigs)

/-- Modelled from the spec (section 4.3): signed_transaction_internal lives in
the crate root, outside src/; it fetches the latest blockhash at the builder
commitment level, assembles the message with the payer as fee payer, and
signs with the payer plus every additional signer in the order supplied. -/
def signedTransactionInternal (b : AsyncRequestBuilder) :
    AsyncM (Except ClientError Transaction) :=
  fun w =>
    match w.latestBlockhash b.options with
    | .error e => .error e
    | .ok bh =>
        let msg : Message :=
          { feePayer := b.payer.address,
            instructions := b.effectiveInstructions,
            recentBlockhash := bh }
        match signAll (b.payer :: b.signers) msg with
        | .error e => .error e
        | .ok sigs => .ok { message := msg, signatures := sigs }

/-- Modelled from the spec (section 4.3): send_internal is signed_transaction
followed by submission through the RPC collaborator at the default send
configuration. -/
def sendInternal (b : AsyncRequestBuilder) : AsyncM (Except ClientError Signature) :=
  fun w =>
    match signedTransactionInternal b w with
    | .error e => .error e
    | .ok tx => w.sendTransaction tx RpcSendTransactionConfig.default

/-- Modelled from the spec (section 4.3): the spinner variant submits with the
caller-supplied send configuration; the visual spinner is non-functional. -/
def sendWithSpinnerAndConfigInternal (b : AsyncRequestBuilder)
    (config : RpcSendTransactionConfig) : AsyncM (Except ClientError Signature) :=
  fun w =>
    match signedTransactionInternal b w with
    | .error e => .error e
    | .ok tx => w.sendTransaction tx config

/-- Translated from blocking.rs RequestBuilder::from: a fresh builder with
empty accumulators, the defaulted commitment, and the snapshot of program
identity, cluster, payer and runtime handle. -/
def BlockingRequestBuilder.fromArgs (programId : Pubkey) (cluster : Nat)
    (payer : SignerCap) (options : Option CommitmentConfig) (handle : Runtime)
    (asyncRpcClient : RpcClient) : BlockingRequestBuilder :=
  { programId, payer, cluster,
    accounts := [],
    options := options.getD CommitmentConfig.default,
    instructions := [],
    instructionData := none,
    signers := [],
    handle, asyncRpcClient }

/-- Translated from nonblocking.rs RequestBuilder::from: a fresh builder with
empty accumulators, the defaulted commitment, and the snapshot of program
identity, cluster and payer. -/
def AsyncRequestBuilder.fromArgs (programId : Pubkey) (cluster : Nat)
    (payer : SignerCap) (options : Option CommitmentConfig)
    (asyncRpcClient : RpcClient) : AsyncRequestBuilder :=
  { programId, payer, cluster,
    accounts := [],
    options := options.getD CommitmentConfig.default,
    instructions := [],
    instructionData := none,
    signers := [],
    asyncRpcClient }

/-- Translated from nonblocking.rs RequestBuilder::from_threadsafe (the
impl for the thread-safe signer representation, with a field-for-field
identical body to from). -/
def AsyncRequestBuilder.fromThreadsafe (programId : Pubkey) (cluster : Nat)
    (payer : SignerCap) (options : Option CommitmentConfig)
    (asyncRpcClient : RpcClient) : AsyncRequestBuilder :=
  { programId, payer, cluster,
    accounts := [],
    options := options.getD CommitmentConfig.default,
    instructions := [],
    instructionData := none,
    signers := [],
    asyncRpcClient }

/-- Translated from blocking.rs RequestBuilder::signed_transaction: block_on
the shared signed_transaction_internal on the stored handle. -/
def BlockingRequestBuilder.signedTransaction (b : BlockingRequestBuilder) :
    AsyncM (Except ClientError Transaction) :=
  b.handle.blockOn (signedTransactionInternal b.toAsync)

/-- Translated from blocking.rs RequestBuilder::send: block_on the shared
send_internal on the stored handle. -/
def BlockingRequestBuilder.send (b : BlockingRequestBuilder) :
    AsyncM (Except ClientError Signature) :=
  b.handle.blockOn (sendInternal b.toAsync)

/-- Translated from blocking.rs RequestBuilder::send_with_spinner_and_config:
block_on the shared spinner internal on the stored handle. -/
def BlockingRequestBuilder.sendWithSpinnerAndConfig (b : BlockingRequestBuilder)
    (config : RpcSendTransactionConfig) : AsyncM (Except ClientError Signature) :=
  b.handle.blockOn (sendWithSpinnerAndConfigInternal b.toAsync config)

/-- Translated from nonblocking.rs RequestBuilder::signed_transaction: await
the shared signed_transaction_internal directly. -/
def AsyncRequestBuilder.signedTransaction (b : AsyncRequestBuilder) :
    AsyncM (Except ClientError Transaction) :=
  signedTransactionInternal b

/-- Translated from nonblocking.rs RequestBuilder::send: await the shared
send_internal directly. -/
def AsyncRequestBuilder.send (b : AsyncRequestBuilder) :
    AsyncM (Except ClientError Signature) :=
  sendInternal b

/-- Translated from nonblocking.rs send_with_spinner_and_config: await the
shared spinner internal directly. -/
def AsyncRequestBuilder.sendWithSpinnerAndConfig (b : AsyncRequestBuilder)
    (config : RpcSendTransactionConfig) : AsyncM (Except ClientError Signature) :=
  sendWithSpinnerAndConfigInternal b config

/-- How a Rust method takes its receiver: by shared reference (the value
stays usable afterwards) or by move (the call consumes it). -/
inductive ReceiverMode
  | byRef
  | byMove
deriving DecidableEq, Repr

/-- Whether a receiver mode leaves the receiver reusable after the call. -/
def ReceiverMode.reusable : ReceiverMode → Bool
  | .byRef => true
  | .byMove => false

/-- Receiver of blocking.rs signed_transaction, written pub fn signed_transaction(&self). -/
def blockingSignedTransactionReceiver : ReceiverMode := .byRef

/-- Receiver of blocking.rs send, written pub fn send(&self). -/
def blockingSendReceiver : ReceiverMode := .byRef

/-- Receiver of blocking.rs send_with_spinner_and_config, written with &self. -/
def blockingSendWithSpinnerReceiver : ReceiverMode := .byRef

/-- Receiver of nonblocking.rs signed_transaction (boxed-signer impl), written with &self. -/
def nonblockingSignedTransactionReceiver : ReceiverMode := .byRef

/-- Receiver of nonblocking.rs send (boxed-signer impl), written pub async fn send(self). -/
def nonblockingSendReceiver : ReceiverMode := .byMove

/-- Receiver of nonblocking.rs send_with_spinner_and_config (boxed-signer impl), written with self. -/
def nonblockingSendWithSpinnerReceiver : ReceiverMode := .byMove

/-- Receiver of nonblocking.rs signed_transaction (thread-safe-signer impl), written with &self. -/
def threadsafeSignedTransactionReceiver : ReceiverMode := .byRef

/-- Receiver of nonblocking.rs send (thread-safe-signer impl), written with self. -/
def threadsafeSendReceiver : ReceiverMode := .byMove

/-- Receiver of nonblocking.rs send_with_spinner_and_config (thread-safe-signer impl), written with self. -/
def threadsafeSendWithSpinnerReceiver : ReceiverMode := .byMove

/-- The lifetime shape of the EventUnsubscriber value a Program::on facade
returns: whether its type borrows the Program (the elided lifetime of the
return type is the &self borrow) and whether it stores a borrowed reference
to the private runtime handle. -/
structure UnsubscriberShape where
  borrowsProgramLifetime : Bool
  carriesRuntimeHandleRef : Bool
deriving DecidableEq, Repr

/-- Shape of the unsubscriber returned by blocking.rs Program::on: the return
type EventUnsubscriber has its lifetime elided to the &self borrow, and the
runtime_handle field is assigned self.rt.handle(), a reference into the
Program-owned runtime. -/
def blockingOnUnsubscriberShape : UnsubscriberShape :=
  { borrowsProgramLifetime := true, carriesRuntimeHandleRef := true }

/-- Shape of the unsubscriber returned by nonblocking.rs Program::on: the
return type EventUnsubscriber has its lifetime elided to the &self borrow,
and no runtime handle exists. -/
def nonblockingOnUnsubscriberShape : UnsubscriberShape :=
  { borrowsProgramLifetime := true, carriesRuntimeHandleRef := false }

/-- One notification of the log stream: the transaction signature plus the
raw payloads extracted from its log lines. -/
structure Notification where
  signature : Signature
  payloads : List Bytes
deriving DecidableEq, Repr

/-- Modelled from the spec (section 4.2): the step at which the background
delivery task exits.  At each discrete step i the task first checks the
control channel; once the stop signal sent at step stopAt is visible it
exits, and it also exits when the notification stream is exhausted. -/
def taskExitStep (stopAt : Nat) (notifs : List Notification) : Nat :=
  min stopAt notifs.length

/-- Events of type T decoded from one notification; payloads whose
discriminator does not match are silently skipped. -/
def decodeEventPayloads (codec : Codec T) (n : Notification) : List T :=
  n.payloads.filterMap fun bytes =>
    match codec.decode bytes with
    | .ok v => some v
    | .error _ => none

/-- Modelled from the spec (section 4.2): every callback invocation the task
performs, tagged with the step at which it happens.  Only notifications
processed strictly before the exit step are delivered. -/
def deliveredCallbacks (codec : Codec T) (stopAt : Nat) (notifs : List Notification) :
    List (Nat × T) :=
  (List.range (taskExitStep stopAt notifs)).flatMap fun i =>
    match notifs.get? i with
    | some n => (decodeEventPayloads codec n).map fun v => (i, v)
    | none => []

/-- Modelled from the spec (section 4.2): unsubscribe sends the stop signal
over the control channel at step stopAt and then joins the background task,
so the call returns no earlier than the send and no earlier than the task
exit. -/
def unsubscribeReturnStep (stopAt : Nat) (notifs : List Notification) : Nat :=
  max stopAt (taskExitStep stopAt notifs)

/-- A public Program operation, as named in both facade files. -/
inductive ProgramOp
  | accountOp (address : Pubkey)
  | accountsOp (filters : List RpcFilterType)
  | accountsLazyOp (filters : List RpcFilterType)
  | onOp
deriving DecidableEq, Repr

/-- Receiver of every public Program operation in blocking.rs: account,
accounts, accounts_lazy and on are all written with &self. -/
def blockingProgramOpReceiver : ProgramOp → ReceiverMode :=
  fun _ => .byRef

/-- Receiver of every public Program operation in nonblocking.rs: account,
accounts, accounts_lazy and on are all written with &self. -/
def nonblockingProgramOpReceiver : ProgramOp → ReceiverMode :=
  fun _ => .byRef

/-- The state of a blocking Program after a public operation.  The account
fetch operations take &self and leave the Program untouched; on may
establish the shared subscription client (the only interior-mutable field),
as returned by on_internal. -/
def BlockingProgram.afterOp (p : BlockingProgram) (op : ProgramOp) (w : World) :
    BlockingProgram :=
  match op with
  | .onOp => { p with subClient := (p.rt.blockOn (onInternal p.programId p.subClient) w).2 }
  | _ => p

/-- The state of a non-blocking Program after a public operation, as for the
blocking one. -/
def AsyncProgram.afterOp (p : AsyncProgram) (op : ProgramOp) (w : World) :
    AsyncProgram :=
  match op with
  | .onOp => { p with subClient := (onInternal p.programId p.subClient w).2 }
  | _ => p

/-- Collecting the converted entries equals draining the iterator entry by
entry: both keep every yielded pair in order and stop at the first error. -/
theorem collectResults_map_eq_drainEntries (deserialize : Bytes → Except ClientError T) :
    ∀ entries : List (Pubkey × Bytes),
      collectResults (entries.map fun e => (deserialize e.2).map fun v => (e.1, v)) =
        drainEntries deserialize entries
  | [] => rfl
  | e :: rest => by
      have ih := collectResults_map_eq_drainEntries deserialize rest
      cases hconv : (deserialize e.2).map fun v => (e.1, v) with
      | error er => simp [collectResults, drainEntries, hconv]
      | ok item => simp [collectResults, drainEntries, hconv, ih]

/-- On any iterator, collect and drain agree. -/
theorem ProgramAccountsIterator.collect_eq_drain (it : ProgramAccountsIterator T) :
    it.collect = it.drain :=
  collectResults_map_eq_drainEntries it.deserialize it.entries

/-- Claim C1: for every operation on Program (account, accounts,
accounts_lazy, on) and on RequestBuilder (signed_transaction, send,
send_with_spinner_and_config), the blocking-mode public method returns
exactly the same success value and exactly the same error value as the
non-blocking method for the same inputs (the same Program state and the same
builder state, compared through the runtime-forgetting view), because both
drive the single shared async implementation; for on, the returned join
handle, control receiver and subscription-client state coincide. -/
theorem dual_mode_bridge_equivalence (T : Type) (codec : Codec T)
    (p : BlockingProgram) (b : BlockingRequestBuilder) (address : Pubkey)
    (filters : List RpcFilterType) (config : RpcSendTransactionConfig) (w : World) :
    p.account codec address w = p.toAsync.account codec address w ∧
    p.accounts codec filters w = p.toAsync.accounts codec filters w ∧
    p.accountsLazy codec filters w = p.toAsync.accountsLazy codec filters w ∧
    ((p.on w).1.map fun u => (u.handle, u.rx)) =
      ((p.toAsync.on w).1.map fun u => (u.handle, u.rx)) ∧
    (p.on w).2 = (p.toAsync.on w).2 ∧
    b.signedTransaction w = b.toAsync.signedTransaction w ∧
    b.send w = b.toAsync.send w ∧
    b.sendWithSpinnerAndConfig config w = b.toAsync.sendWithSpinnerAndConfig config w := by
  refine ⟨rfl, rfl, rfl, ?_, ?_, rfl, rfl, rfl⟩ <;>
    · show _ = _
      simp only [BlockingProgram.on, AsyncProgram.on, BlockingProgram.toAsync,
        Runtime.blockOn]
      cases h : onInternal p.programId p.subClient w with
      | mk res sc => cases res <;> simp [Except.map]

/-- Claim C2: in both modes, accounts over any filter set returns exactly the
result of calling accounts_lazy over the same filters and eagerly draining
the returned iterator to completion: the same (address, value) pairs in the
same order on success, and the same error when the underlying fetch or any
per-item decode fails. -/
theorem accounts_eq_drained_accounts_lazy (T : Type) (codec : Codec T)
    (p : BlockingProgram) (q : AsyncProgram) (filters : List RpcFilterType) (w : World) :
    p.accounts codec filters w = drainResult (p.accountsLazy codec filters w) ∧
    q.accounts codec filters w = drainResult (q.accountsLazy codec filters w) := by
  constructor
  · show (match p.accountsLazy codec filters w with
          | .error e => .error e
          | .ok it => it.collect) = drainResult (p.accountsLazy codec filters w)
    cases p.accountsLazy codec filters w with
    | error e => rfl
    | ok it => simpa [drainResult] using it.collect_eq_drain
  · show (match q.accountsLazy codec filters w with
          | .error e => .error e
          | .ok it => it.collect) = drainResult (q.accountsLazy codec filters w)
    cases q.accountsLazy codec filters w with
    | error e => rfl
    | ok it => simpa [drainResult] using it.collect_eq_drain

/-- Claim C3: once unsubscribe returns (in either mode), no further callback
invocation for that subscription is observable: every callback the task ever
performs happens at a step strictly before the step at which unsubscribe
returns, because unsubscribe first sends the stop signal and then joins the
task, so it returns only after the task has exited. -/
theorem no_callback_after_unsubscribe (T : Type) (codec : Codec T) (stopAt : Nat)
    (notifs : List Notification) (e : Nat × T)
    (hmem : e ∈ deliveredCallbacks codec stopAt notifs) :
    e.1 < unsubscribeReturnStep stopAt notifs := by
  rcases List.mem_flatMap.mp hmem with ⟨i, hrange, hinner⟩
  have hi : i < taskExitStep stopAt notifs := List.mem_range.mp hrange
  have hfst : e.1 = i := by
    cases hget : notifs.get? i with
    | none => rw [hget] at hinner; cases hinner
    | some n =>
        rw [hget] at hinner
        rcases List.mem_map.mp hinner with ⟨v, _, hv⟩
        rw [← hv]
  have hret : taskExitStep stopAt notifs ≤ unsubscribeReturnStep stopAt notifs :=
    le_max_right _ _
  omega

/-- A concrete codec over Nat events used to exercise the subscription model:
a singleton payload decodes to its value, anything else is a decode error. -/
def exampleCodec : Codec Nat :=
  { decode := fun bytes =>
      match bytes with
      | [b] => .ok b
      | _ => .error (.decodeError 0),
    discriminator := [0] }

/-- A one-notification stream carrying the single event payload 7. -/
def exampleNotifs : List Notification :=
  [{ signature := { bytes := 0 }, payloads := [[7]] }]

/-- Witness for claim C3: with the stop signal sent at step 1, the callback
delivered at step 0 happens strictly before unsubscribe returns. -/
theorem no_callback_after_unsubscribe_witness :
    (0, 7) ∈ deliveredCallbacks exampleCodec 1 exampleNotifs ∧
      (0, 7).1 < unsubscribeReturnStep 1 exampleNotifs :=
  ⟨by decide,
   no_callback_after_unsubscribe Nat exampleCodec 1 exampleNotifs (0, 7) (by decide)⟩

/-- Counterexample for claim C4: the claim asserts that in blocking mode send
and send_with_spinner_and_config consume the builder, but both blocking
methods take the builder by shared reference. -/
theorem send_consumes_in_blocking_mode_refuted :
    ¬ (blockingSendReceiver = ReceiverMode.byMove ∧
       blockingSendWithSpinnerReceiver = ReceiverMode.byMove) := by
  decide

/-- Claim C4 (amended): signed_transaction borrows the builder in every impl,
so it may be called repeatedly; in non-blocking mode send and
send_with_spinner_and_config consume the builder (single use for
submission), but in blocking mode they too take the builder by shared
reference, leaving a blocking builder reusable after a submission call. -/
theorem builder_receiver_modes :
    blockingSignedTransactionReceiver = ReceiverMode.byRef ∧
    blockingSendReceiver = ReceiverMode.byRef ∧
    blockingSendWithSpinnerReceiver = ReceiverMode.byRef ∧
    nonblockingSignedTransactionReceiver = ReceiverMode.byRef ∧
    nonblockingSendReceiver = ReceiverMode.byMove ∧
    nonblockingSendWithSpinnerReceiver = ReceiverMode.byMove ∧
    threadsafeSignedTransactionReceiver = ReceiverMode.byRef ∧
    threadsafeSendReceiver = ReceiverMode.byMove ∧
    threadsafeSendWithSpinnerReceiver = ReceiverMode.byMove ∧
    blockingSendReceiver.reusable = true ∧
    nonblockingSendReceiver.reusable = false := by
  decide

/-- Counterexample for claim C5: the claim asserts the blocking-mode
EventUnsubscriber is lifetime-independent of the Program, but the blocking
Program::on returns an unsubscriber whose elided lifetime is the &self
borrow and whose runtime_handle field is the borrowed self.rt.handle(). -/
theorem blocking_unsubscriber_lifetime_independent_refuted :
    ¬ blockingOnUnsubscriberShape.borrowsProgramLifetime = false := by
  decide

/-- Claim C5 (amended): the EventUnsubscriber returned by Program::on is
bound to the lifetime of the Program in both modes; in blocking mode it
additionally carries a borrowed reference to the handle of the Program
private runtime (not an owned handle), while in async mode it carries no
runtime handle. -/
theorem unsubscriber_lifetime_shape :
    nonblockingOnUnsubscriberShape.borrowsProgramLifetime = true ∧
    blockingOnUnsubscriberShape.borrowsProgramLifetime = true ∧
    blockingOnUnsubscriberShape.carriesRuntimeHandleRef = true ∧
    nonblockingOnUnsubscriberShape.carriesRuntimeHandleRef = false := by
  decide

/-- Claim C6: constructing a blocking Program performs no network call (the
construction is a pure function of the OS runtime-build outcome and the
arguments, not of the RPC world): it fails exactly when building the private
runtime fails, with that failure code wrapped as RuntimeInitError, and on a
successful build it always returns a Program whose subscription client
starts unestablished and whose configuration is the one supplied. -/
theorem blocking_new_fails_only_on_runtime_init (programId : Pubkey) (cfg : Config) :
    (∀ code : Nat,
      BlockingProgram.new (.error code) programId cfg =
        .error (.runtimeInitError code)) ∧
    (∀ rt : Runtime,
      BlockingProgram.new (.ok rt) programId cfg =
        .ok { programId, cfg, subClient := none, rt,
              rpcClient := RpcClient.newWithCommitment cfg.cluster.url
                (cfg.options.getD CommitmentConfig.default),
              asyncRpcClient := RpcClient.newWithCommitment cfg.cluster.url
                (cfg.options.getD CommitmentConfig.default) }) :=
  ⟨fun _ => rfl, fun _ => rfl⟩

/-- Claim C7: a Program configuration is never modified after construction:
every public operation (account, accounts, accounts_lazy, on) takes the
Program by shared reference in both facades, and the Program state after any
of these operations has its program identity and configuration equal to
their values before the call (only the lazily established subscription
client may change, under on). -/
theorem program_config_immutable (p : BlockingProgram) (q : AsyncProgram)
    (op : ProgramOp) (w : World) :
    (p.afterOp op w).programId = p.programId ∧
    (p.afterOp op w).cfg = p.cfg ∧
    (q.afterOp op w).programId = q.programId ∧
    (q.afterOp op w).cfg = q.cfg ∧
    blockingProgramOpReceiver op = ReceiverMode.byRef ∧
    nonblockingProgramOpReceiver op = ReceiverMode.byRef := by
  cases op <;>
    exact ⟨rfl, rfl, rfl, rfl, rfl, rfl⟩

/-- Claim C8: when the optional commitment level is absent, Program::new (in
both modes) constructs its RPC collaborator handles at the default
commitment configuration, and RequestBuilder::from and from_threadsafe store
the default commitment configuration in the builder, so every downstream
operation observes a defined commitment level. -/
theorem absent_commitment_defaults (programId : Pubkey) (cluster : Cluster)
    (payer : SignerCap) (rt : Runtime) (clusterUrl : Nat) (handle : Runtime)
    (rpcc : RpcClient) :
    (∃ p : AsyncProgram,
      AsyncProgram.new programId { cluster, payer, options := none } = .ok p ∧
        p.rpcClient.commitment = CommitmentConfig.default ∧
        p.asyncRpcClient.commitment = CommitmentConfig.default) ∧
    (∃ p : BlockingProgram,
      BlockingProgram.new (.ok rt) programId { cluster, payer, options := none } = .ok p ∧
        p.rpcClient.commitment = CommitmentConfig.default ∧
        p.asyncRpcClient.commitment = CommitmentConfig.default) ∧
    (BlockingRequestBuilder.fromArgs programId clusterUrl payer none handle rpcc).options =
      CommitmentConfig.default ∧
    (AsyncRequestBuilder.fromArgs programId clusterUrl payer none rpcc).options =
      CommitmentConfig.default ∧
    (AsyncRequestBuilder.fromThreadsafe programId clusterUrl payer none rpcc).options =
      CommitmentConfig.default :=
  ⟨⟨_, rfl, rfl, rfl⟩, ⟨_, rfl, rfl, rfl⟩, rfl, rfl, rfl⟩

/-- Claim C9: a freshly constructed RequestBuilder, via from in either mode
or via from_threadsafe, starts with an empty instruction sequence, an empty
account-metadata list, an empty additional-signer list and no fixed
instruction-data override, while program identity, cluster, payer and
commitment (defaulted when absent) are snapshotted from the constructor
arguments. -/
theorem fresh_builder_initial_state (programId : Pubkey) (clusterUrl : Nat)
    (payer : SignerCap) (options : Option CommitmentConfig) (handle : Runtime)
    (rpcc : RpcClient) :
    ((BlockingRequestBuilder.fromArgs programId clusterUrl payer options handle rpcc).instructions = [] ∧
     (BlockingRequestBuilder.fromArgs programId clusterUrl payer options handle rpcc).accounts = [] ∧
     (BlockingRequestBuilder.fromArgs programId clusterUrl payer options handle rpcc).signers = [] ∧
     (BlockingRequestBuilder.fromArgs programId clusterUrl payer options handle rpcc).instructionData = none ∧
     (BlockingRequestBuilder.fromArgs programId clusterUrl payer options handle rpcc).programId = programId ∧
     (BlockingRequestBuilder.fromArgs programId clusterUrl payer options handle rpcc).cluster = clusterUrl ∧
     (BlockingRequestBuilder.fromArgs programId clusterUrl payer options handle rpcc).payer = payer ∧
     (BlockingRequestBuilder.fromArgs programId clusterUrl payer options handle rpcc).options =
       options.getD CommitmentConfig.default ∧
     (BlockingRequestBuilder.fromArgs programId clusterUrl payer options handle rpcc).handle = handle) ∧
    ((AsyncRequestBuilder.fromArgs programId clusterUrl payer options rpcc).instructions = [] ∧
     (AsyncRequestBuilder.fromArgs programId clusterUrl payer options rpcc).accounts = [] ∧
     (AsyncRequestBuilder.fromArgs programId clusterUrl payer options rpcc).signers = [] ∧
     (AsyncRequestBuilder.fromArgs programId clusterUrl payer options rpcc).instructionData = none ∧
     (AsyncRequestBuilder.fromArgs programId clusterUrl payer options rpcc).programId = programId ∧
     (AsyncRequestBuilder.fromArgs programId clusterUrl payer options rpcc).cluster = clusterUrl ∧
     (AsyncRequestBuilder.fromArgs programId clusterUrl payer options rpcc).payer = payer ∧
     (AsyncRequestBuilder.fromArgs programId clusterUrl payer options rpcc).options =
       options.getD CommitmentConfig.default) ∧
    ((AsyncRequestBuilder.fromThreadsafe programId clusterUrl payer options rpcc).instructions = [] ∧
     (AsyncRequestBuilder.fromThreadsafe programId clusterUrl payer options rpcc).accounts = [] ∧
     (AsyncRequestBuilder.fromThreadsafe programId clusterUrl payer options rpcc).signers = [] ∧
     (AsyncRequestBuilder.fromThreadsafe programId clusterUrl payer options rpcc).instructionData = none ∧
     (AsyncRequestBuilder.fromThreadsafe programId clusterUrl payer options rpcc).programId = programId ∧
     (AsyncRequestBuilder.fromThreadsafe programId clusterUrl payer options rpcc).cluster = clusterUrl ∧
     (AsyncRequestBuilder.fromThreadsafe programId clusterUrl payer options rpcc).payer = payer ∧
     (AsyncRequestBuilder.fromThreadsafe programId clusterUrl payer options rpcc).options =
       options.getD CommitmentConfig.default) :=
  ⟨⟨rfl, rfl, rfl, rfl, rfl, rfl, rfl, rfl, rfl⟩,
   ⟨rfl, rfl, rfl, rfl, rfl, rfl, rfl, rfl⟩,
   ⟨rfl, rfl, rfl, rfl, rfl, rfl, rfl, rfl⟩⟩

/-- Claim C10: in non-blocking mode Program::new is infallible: for every
program identity and configuration it returns Ok (no private runtime is
built, so RuntimeInitError cannot occur), even though its signature is a
Result. -/
theorem nonblocking_new_infallible (programId : Pubkey) (cfg : Config) :
    ∃ p : AsyncProgram, AsyncProgram.new programId cfg = .ok p :=
  ⟨_, rfl⟩

end AnchorClient
